import Mathlib

/-!
Verification development for the hand-gesture particle system.

The embedding below translates the JavaScript sources into Lean:
* gesture classification (`src/utils/gestureDetection.js`, the
  IDLE/THUMBS_UP/PEACE/TWO_HAND_CLASP variant, also inlined at
  `src/src/systems/ParticleSystem.js` lines 457-573),
* the gesture smoothing window of `useHandTracking`
  (`src/unnamed/part_003` lines 183-219),
* the CPU particle engine `ParticleSystem` (`src/src/systems/ParticleSystem.js`
  lines 113-246),
* the shape generators (`src/src/utils/shapeGenerators.js` and the `SHAPES`
  table of `ParticleSystem.js`),
* the GPGPU ping-pong buffer bookkeeping (`src/src/hooks/useGPGPU.jsx`,
  `src/unnamed/part_003` lines 8-95) and the simulation fragment shader's
  mouse-attraction term.

JavaScript numbers are modelled as real numbers.  A JavaScript function that
can throw a `TypeError` (reading a property of `undefined` after an
out-of-range landmark access) is modelled as returning `Option`/`none` at the
point where the missing landmark's coordinate would be read.
-/

noncomputable section

/-- One MediaPipe hand landmark: normalized x, y and relative depth z. -/
structure Keypoint where
  x : ℝ
  y : ℝ
  z : ℝ

/-- A hand as delivered by MediaPipe: a list of landmarks.  A well-formed
hand has 21 entries, but the embedding keeps the length unconstrained so that
malformed input can be analysed. -/
abbrev Hand := List Keypoint

namespace GestureDetection

/-- `isFingerExtended(landmarks, tipIdx, pipIdx)` from gestureDetection.js:
tip is further from wrist than the PIP joint by a 10% margin.
`none` models the TypeError thrown when an accessed landmark is missing. -/
def isFingerExtended (landmarks : Hand) (tipIdx pipIdx : ℕ) : Option Bool := do
  let wrist ← landmarks[0]?
  let tip ← landmarks[tipIdx]?
  let pip ← landmarks[pipIdx]?
  let tipDist := Real.sqrt ((tip.x - wrist.x) ^ 2 + (tip.y - wrist.y) ^ 2)
  let pipDist := Real.sqrt ((pip.x - wrist.x) ^ 2 + (pip.y - wrist.y) ^ 2)
  pure (decide (tipDist > pipDist * 1.1))

/-- `isThumbUp(landmarks)` from gestureDetection.js.  Reads landmarks
4, 3, 8, 12, 16, 20 and calls `isFingerExtended` for index and middle. -/
def isThumbUp (landmarks : Hand) : Option Bool := do
  let thumbTip ← landmarks[4]?
  let thumbIp ← landmarks[3]?
  let indexTip ← landmarks[8]?
  let middleTip ← landmarks[12]?
  let ringTip ← landmarks[16]?
  let pinkyTip ← landmarks[20]?
  let thumbIsHighest := decide (thumbTip.y < indexTip.y) &&
    decide (thumbTip.y < middleTip.y) &&
    decide (thumbTip.y < ringTip.y) &&
    decide (thumbTip.y < pinkyTip.y)
  let thumbExtended := decide (thumbTip.y < thumbIp.y - (0.05 : ℝ))
  let indexExt ← isFingerExtended landmarks 8 6
  let middleExt ← isFingerExtended landmarks 12 10
  pure (thumbIsHighest && thumbExtended && !indexExt && !middleExt)

/-- `isPeaceSign(landmarks)` from gestureDetection.js. -/
def isPeaceSign (landmarks : Hand) : Option Bool := do
  let indexExtended ← isFingerExtended landmarks 8 6
  let middleExtended ← isFingerExtended landmarks 12 10
  let ringExt ← isFingerExtended landmarks 16 14
  let pinkyExt ← isFingerExtended landmarks 20 18
  pure (indexExtended && middleExtended && !ringExt && !pinkyExt)

/-- `detectGesture(hands)` from gestureDetection.js.  The outer `Option` on
the argument models a null/undefined `hands` value (the `!hands` test); the
`Option` on the result models a thrown TypeError. -/
def detectGesture (handsArg : Option (List Hand)) : Option String :=
  match handsArg with
  | none => pure "IDLE"
  | some hands =>
    if hands.length = 0 then pure "IDLE"
    else do
      let claspHit ←
        (if hands.length = 2 then do
          let hand1 ← hands[0]?
          let hand2 ← hands[1]?
          let hand1Centroid ← hand1[0]?
          let hand2Centroid ← hand2[0]?
          let distance := Real.sqrt ((hand1Centroid.x - hand2Centroid.x) ^ 2 +
            (hand1Centroid.y - hand2Centroid.y) ^ 2)
          if distance < 0.1 then pure true else pure false
        else pure false)
      if claspHit then pure "TWO_HAND_CLASP"
      else do
        let primaryHand ← hands[0]?
        let tu ← isThumbUp primaryHand
        if tu then pure "THUMBS_UP"
        else do
          let ps ← isPeaceSign primaryHand
          if ps then pure "PEACE" else pure "IDLE"

end GestureDetection

namespace HandTracking

/-- `GESTURE_CONFIDENCE_THRESHOLD` from useHandTracking (part_003 line 124). -/
def GESTURE_CONFIDENCE_THRESHOLD : ℕ := 15

/-- The gesture-smoothing state of `useHandTracking`: the sliding window
`gestureBufferRef.current` and the committed gesture `detectedGesture`. -/
structure SmootherState where
  buffer : List String
  committed : String
deriving DecidableEq

/-- One gesture-smoothing step (part_003 lines 196-211): push the new sample,
evict the oldest entry if the window exceeds 15 entries, and commit the new
sample as the detected gesture only if the window is full (exactly 15) and
every entry equals the newest sample. -/
def smootherStep (st : SmootherState) (instantaneousGesture : String) : SmootherState :=
  let buf1 := st.buffer ++ [instantaneousGesture]
  let buf2 := if GESTURE_CONFIDENCE_THRESHOLD < buf1.length then buf1.tail else buf1
  if buf2.length = GESTURE_CONFIDENCE_THRESHOLD then
    if buf2.all (fun g => g == instantaneousGesture) then ⟨buf2, instantaneousGesture⟩
    else ⟨buf2, st.committed⟩
  else ⟨buf2, st.committed⟩

/-- Feed a list of per-frame classifications through the smoother in order. -/
def feedSmoother (st : SmootherState) : List String → SmootherState
  | [] => st
  | g :: gs => feedSmoother (smootherStep st g) gs

/-- The `k`-th element of a strictly alternating classification stream:
`a` on even frames, `b` on odd frames. -/
def altf (a b : String) (k : ℕ) : String := if k % 2 = 0 then a else b

/-- A strictly alternating classification sequence of length `n`:
`a, b, a, b, ...` for two labels `a ≠ b`. -/
def altSeq (a b : String) (n : ℕ) : List String :=
  (List.range n).map (altf a b)

/-- The state owned by the `hands.onResults` callback of `useHandTracking`
(part_003): the published hand list and the gesture smoother. -/
structure TrackState where
  hands : List (ℝ × ℝ × ℝ)
  smoother : SmootherState

/-- One `hands.onResults` detection cycle (part_003 lines 183-219).  With at
least one hand present, the published hand positions are recomputed from
landmark 9 of each hand (mirrored and rescaled), the classifier output is
pushed through the smoother.  With zero hands, only the published hand list
is cleared; the smoother is untouched.  `none` models a TypeError (missing
landmark 9 or a classifier throw). -/
def onResults (st : TrackState) (multiHandLandmarks : List Hand) : Option TrackState :=
  if 0 < multiHandLandmarks.length then do
    let hands ← multiHandLandmarks.mapM fun l => do
      let p ← l[9]?
      pure (((1 - p.x) * 2 - 1, (1 - p.y) * 2 - 1, (0 : ℝ)))
    let instantaneousGesture ← GestureDetection.detectGesture (some multiHandLandmarks)
    pure ⟨hands, smootherStep st.smoother instantaneousGesture⟩
  else
    pure ⟨[], st.smoother⟩

/-- `n` consecutive detection cycles that each report zero hands. -/
def emptyCycles : ℕ → TrackState → Option TrackState
  | 0, st => some st
  | n + 1, st => (onResults st []).bind (emptyCycles n)

end HandTracking

namespace GPGPU

/-- The `targets` ref of `useGPGPU`: the two render targets in their
current/previous roles (`useGPGPU.jsx` line 29, part_003 line 29). -/
structure PingPong (α : Type*) where
  current : α
  previous : α
deriving DecidableEq

/-- The end-of-frame buffer swap (`useGPGPU.jsx` lines 131-133):
`current` and `previous` exchange roles. -/
def swapTargets {α : Type*} (t : PingPong α) : PingPong α :=
  ⟨t.previous, t.current⟩

/-- The `targets` ref at the start of render tick `k` (tick 0 starts from the
initial `{ current: fbo1, previous: fbo2 }`). -/
def targetsAt {α : Type*} (init : PingPong α) : ℕ → PingPong α
  | 0 => init
  | k + 1 => swapTargets (targetsAt init k)

/-- The buffer whose texture is read during tick `k`
(`material.uniforms.uCurrentPosition.value = previous.texture`). -/
def readBuffer {α : Type*} (init : PingPong α) (k : ℕ) : α :=
  (targetsAt init k).previous

/-- The buffer rendered into during tick `k` (`gl.setRenderTarget(current)`). -/
def writeBuffer {α : Type*} (init : PingPong α) (k : ℕ) : α :=
  (targetsAt init k).current

end GPGPU

/-- A 3-component vector, one particle's position or a position target. -/
structure Vec3 where
  x : ℝ
  y : ℝ
  z : ℝ

namespace ParticleSystem

/-- The `inputState` argument of `ParticleSystem.update`
(`ParticleSystem.js` lines 183-190). -/
structure InputState where
  active : Bool
  x : ℝ
  y : ℝ
  gesture : String
  mouseHover : Bool

/-- The interaction values derived once per `update` call
(`ParticleSystem.js` lines 183-190): scene-scaled interaction point,
activity flag and repel/attract mode.  A missing (`undefined`) `inputState`
behaves like an inactive one. -/
structure Interact where
  active : Bool
  interactX : ℝ
  interactY : ℝ
  repel : Bool

/-- `let interactX = 0, interactY = 0, active = false, repel = false;
if (inputState && inputState.active) ...` -/
def readInput (inputState : Option InputState) : Interact :=
  match inputState with
  | none => ⟨false, 0, 0, false⟩
  | some s =>
    if s.active then ⟨true, s.x * 80, s.y * 80, (s.gesture == "OPEN") || s.mouseHover⟩
    else ⟨false, 0, 0, false⟩

/-- `const force = (40 - dist) / 40` (`ParticleSystem.js` line 211): the
interaction force factor; the only division in the CPU force computation,
and its denominator is the constant 40. -/
def cpuForce (dist : ℝ) : ℝ := (40 - dist) / 40

/-- The interaction-adjusted target of one particle
(`ParticleSystem.js` lines 199-224): start from the shape target; when the
interaction is active and the particle lies within 40 units of the
interaction point, either push the target away from the point (repel) or
replace it by a jittered point at the interaction centre (attract).
`randA`, `randB` are the `Math.random()` draws of the attract branch. -/
def forcedTarget (ia : Interact) (randA randB : ℝ) (target pos : Vec3) : Vec3 :=
  if ia.active then
    let dx := pos.x - ia.interactX
    let dy := pos.y - ia.interactY
    let dz := pos.z
    let dist := Real.sqrt (dx * dx + dy * dy + dz * dz)
    if dist < 40 then
      let force := cpuForce dist
      if ia.repel then
        ⟨target.x + dx * force * 5, target.y + dy * force * 5, target.z + dz * force * 5⟩
      else
        ⟨ia.interactX + (randA - 0.5) * 10, ia.interactY + (randB - 0.5) * 10, target.z⟩
    else target
  else target

/-- The per-coordinate exponential blend `positions[i] += (t - positions[i]) * speed`
(`ParticleSystem.js` lines 227-229). -/
def lerpStep (speed : ℝ) (pos t : Vec3) : Vec3 :=
  ⟨pos.x + (t.x - pos.x) * speed,
   pos.y + (t.y - pos.y) * speed,
   pos.z + (t.z - pos.z) * speed⟩

/-- One particle's position update for one tick (`ParticleSystem.js` lines
192-229).  `randSpeed` is the `Math.random()` draw of
`const speed = 0.03 + (Math.random() * 0.02)`. -/
def updateParticle (ia : Interact) (randSpeed randA randB : ℝ) (target pos : Vec3) : Vec3 :=
  lerpStep (0.03 + randSpeed * 0.02) pos (forcedTarget ia randA randB target pos)

/-- `ParticleSystem.update` restricted to the position state: every particle
is advanced by `updateParticle` with its own random draws. -/
def update {n : ℕ} (inputState : Option InputState)
    (randSpeed randA randB : Fin n → ℝ)
    (targetPositions positions : Fin n → Vec3) : Fin n → Vec3 :=
  fun i => updateParticle (readInput inputState) (randSpeed i) (randA i) (randB i)
    (targetPositions i) (positions i)

/-- The position state after `k` ticks of `update` with a fixed target and a
fixed input state; `randSpeed k i` is the speed draw of particle `i` at
tick `k`, and similarly for the attract jitter draws. -/
def trajectory {n : ℕ} (inputState : Option InputState)
    (randSpeed randA randB : ℕ → Fin n → ℝ)
    (targetPositions positions0 : Fin n → Vec3) : ℕ → (Fin n → Vec3)
  | 0 => positions0
  | k + 1 => update inputState (randSpeed k) (randA k) (randB k) targetPositions
      (trajectory inputState randSpeed randA randB targetPositions positions0 k)

/-- The position error norm: the sum over all particles and coordinates of
the absolute difference between live and target positions. -/
def errNorm {n : ℕ} (targetPositions positions : Fin n → Vec3) : ℝ :=
  ∑ i, (|(positions i).x - (targetPositions i).x| +
    |(positions i).y - (targetPositions i).y| +
    |(positions i).z - (targetPositions i).z|)

/-- The squared distance from a particle to the interaction point
`(interactX, interactY, 0)`, written exactly as the `dx*dx + dy*dy + dz*dz`
of `ParticleSystem.js` lines 205-208. -/
def sqDistToInteract (ia : Interact) (pos : Vec3) : ℝ :=
  (pos.x - ia.interactX) * (pos.x - ia.interactX) +
    (pos.y - ia.interactY) * (pos.y - ia.interactY) + pos.z * pos.z

/-- The distance from a particle to the interaction point
(`const dist = Math.sqrt(dx*dx + dy*dy + dz*dz)`). -/
def distToInteract (ia : Interact) (pos : Vec3) : ℝ :=
  Real.sqrt (sqDistToInteract ia pos)

end ParticleSystem

namespace SimulationShader

/-- GLSL `length(v)` for a 3-vector. -/
def simLength (v : Vec3) : ℝ := Real.sqrt (v.x * v.x + v.y * v.y + v.z * v.z)

/-- The denominator of the mouse gravity-well term of the simulation
fragment shader (`shapeGenerators.js` concatenation, line 276):
`0.05 / (dist + 0.1)` — the `+ 0.1` is the minimum-distance epsilon. -/
def mouseWellDenom (mouseWorld pos : Vec3) : ℝ :=
  simLength ⟨mouseWorld.x - pos.x, mouseWorld.y - pos.y, mouseWorld.z - pos.z⟩ + 0.1

/-- GLSL `normalize(v)`, i.e. `v / length(v)`: this division is NOT guarded
by any epsilon, and for the zero vector it is `0 / 0` — undefined in GLSL
(it yields NaN).  The undefined case is modelled as `none`. -/
def normalize3 (v : Vec3) : Option Vec3 :=
  if simLength v = 0 then none
  else some ⟨v.x / simLength v, v.y / simLength v, v.z / simLength v⟩

/-- The mouse gravity-well velocity contribution of the simulation fragment
shader (lines 272-277): within a capture radius of 1.5, attract along
`normalize(dir)` with magnitude `0.05 / (dist + 0.1)`.  Only the magnitude's
denominator carries the `+ 0.1` epsilon; the `normalize(dir)` factor divides
by the raw distance, so at distance 0 the term is undefined (NaN), modelled
as `none`. -/
def mouseWellVelocity (mouseWorld pos : Vec3) : Option Vec3 :=
  let dir : Vec3 := ⟨mouseWorld.x - pos.x, mouseWorld.y - pos.y, mouseWorld.z - pos.z⟩
  let dist := simLength dir
  if dist < 1.5 then
    (normalize3 dir).map fun nd =>
      let mag := 0.05 / (dist + 0.1)
      ⟨nd.x * mag, nd.y * mag, nd.z * mag⟩
  else some ⟨0, 0, 0⟩

end SimulationShader

namespace shapeGenerators

/-- `generateSphere(count, radius = 2)` from `shapeGenerators.js`:
Fibonacci sphere distribution. -/
def generateSphere (count : ℕ) (radius : ℝ) : List ℝ :=
  (List.range count).flatMap fun i =>
    let phi := Real.arccos (1 - 2 * ((i : ℝ) + 0.5) / (count : ℝ))
    let theta := Real.pi * (1 + Real.sqrt 5) * (i : ℝ)
    [radius * Real.sin phi * Real.cos theta,
     radius * Real.sin phi * Real.sin theta,
     radius * Real.cos phi]

/-- `generateHeart(count, scale = 0.15)` from `shapeGenerators.js`:
parametric heart curve with layered depth. -/
def generateHeart (count : ℕ) (scale : ℝ) : List ℝ :=
  (List.range count).flatMap fun i =>
    let t := ((i : ℝ) / (count : ℝ)) * Real.pi * 2
    let layer : ℤ := ⌊(i : ℝ) / ((count : ℝ) / 10)⌋
    let x := 16 * (Real.sin t) ^ 3
    let y := 13 * Real.cos t - 5 * Real.cos (2 * t) - 2 * Real.cos (3 * t) - Real.cos (4 * t)
    let z := Real.sin (t * 3) * 5 + ((layer : ℝ) - 5) * 2
    [x * scale, y * scale, z * scale]

/-- One cube-face point of `generateCube` (the `switch (face)` body);
the unreachable default leaves the zero-initialized slots in place. -/
def cubeFacePoint (size u v : ℝ) (face : ℕ) : List ℝ :=
  let half := size / 2
  if face = 0 then [(u - 0.5) * size, (v - 0.5) * size, half]
  else if face = 1 then [(u - 0.5) * size, (v - 0.5) * size, -half]
  else if face = 2 then [(u - 0.5) * size, half, (v - 0.5) * size]
  else if face = 3 then [(u - 0.5) * size, -half, (v - 0.5) * size]
  else if face = 4 then [half, (u - 0.5) * size, (v - 0.5) * size]
  else if face = 5 then [-half, (u - 0.5) * size, (v - 0.5) * size]
  else [0, 0, 0]

/-- `generateCube(count, size = 3)` from `shapeGenerators.js`; `rand` is the
stream of `Math.random()` draws (two per particle). -/
def generateCube (count : ℕ) (size : ℝ) (rand : ℕ → ℝ) : List ℝ :=
  (List.range count).flatMap fun i =>
    cubeFacePoint size (rand (2 * i)) (rand (2 * i + 1)) (i % 6)

/-- `generateDoubleHelix(count, radius = 1.5, height = 6)` from
`shapeGenerators.js`: two strands alternating by particle parity. -/
def generateDoubleHelix (count : ℕ) (radius height : ℝ) : List ℝ :=
  (List.range count).flatMap fun i =>
    let t := ((i : ℝ) / (count : ℝ)) * Real.pi * 8
    let strand := i % 2
    let angle := t + (strand : ℝ) * Real.pi
    let y := ((i : ℝ) / (count : ℝ)) * height - height / 2
    [radius * Real.cos angle, y, radius * Real.sin angle]

end shapeGenerators

namespace SHAPES

/-- `SHAPES.SPHERE` from `ParticleSystem.js` lines 7-18 (radius 60,
spiral-sphere distribution). -/
def SPHERE (count : ℕ) : List ℝ :=
  (List.range count).flatMap fun i =>
    let radius : ℝ := 60
    let phi := Real.arccos (-1 + (2 * (i : ℝ)) / (count : ℝ))
    let theta := Real.sqrt ((count : ℝ) * Real.pi) * phi
    [radius * Real.cos theta * Real.sin phi,
     radius * Real.sin theta * Real.sin phi,
     radius * Real.cos phi]

/-- `SHAPES.HEART` from `ParticleSystem.js` lines 19-34 (scale 3.5, curve
wrapped 100 times, random depth). -/
def HEART (count : ℕ) (rand : ℕ → ℝ) : List ℝ :=
  (List.range count).flatMap fun i =>
    let scale : ℝ := 3.5
    let t := ((i : ℝ) / (count : ℝ)) * Real.pi * 2 * 100
    let x := 16 * (Real.sin t) ^ 3
    let y := 13 * Real.cos t - 5 * Real.cos (2 * t) - 2 * Real.cos (3 * t) - Real.cos (4 * t)
    let z := (rand i - 0.5) * 10
    [x * scale, y * scale, z]

/-- `SHAPES.FLOWER` from `ParticleSystem.js` lines 35-49 (rose curve with
random sampling; three draws per particle). -/
def FLOWER (count : ℕ) (rand : ℕ → ℝ) : List ℝ :=
  (List.range count).flatMap fun i =>
    let scale : ℝ := 30
    let u := rand (3 * i) * Real.pi * 2
    let v := rand (3 * i + 1) * Real.pi
    let r := Real.sin (5 * u) * scale
    [r * Real.cos u * Real.sin v * 2,
     r * Real.sin u * Real.sin v * 2,
     (rand (3 * i + 2) - 0.5) * 50]

/-- `SHAPES.SATURN` from `ParticleSystem.js` lines 50-87: 70% inner sphere
(radius 40) and 30% tilted flattened ring.  `Math.floor(count * 0.7)` is
modelled as the natural-number floor `7 * count / 10`. -/
def SATURN (count : ℕ) (rand : ℕ → ℝ) : List ℝ :=
  let sphereCount := 7 * count / 10
  let ringCount := count - sphereCount
  ((List.range sphereCount).flatMap fun i =>
    let sphereRad : ℝ := 40
    let phi := Real.arccos (-1 + (2 * (i : ℝ)) / (sphereCount : ℝ))
    let theta := Real.sqrt ((sphereCount : ℝ) * Real.pi) * phi
    [sphereRad * Real.cos theta * Real.sin phi,
     sphereRad * Real.sin theta * Real.sin phi,
     sphereRad * Real.cos phi]) ++
  ((List.range ringCount).flatMap fun i =>
    let angle := rand (3 * i) * Real.pi * 2
    let r := 60 + rand (3 * i + 1) * (90 - 60)
    let x := r * Real.cos angle
    let y := r * Real.sin angle * 0.1
    let z := (rand (3 * i + 2) - 0.5) * 2
    let tilt := Real.pi * 0.2
    [x, y * Real.cos tilt - x * Real.sin tilt, z])

/-- `SHAPES.FIREWORKS` from `ParticleSystem.js` lines 88-102: uniform random
ball of radius 200. -/
def FIREWORKS (count : ℕ) (rand : ℕ → ℝ) : List ℝ :=
  (List.range count).flatMap fun i =>
    let maxDist : ℝ := 200
    let theta := rand (3 * i) * Real.pi * 2
    let phi := Real.arccos (rand (3 * i + 1) * 2 - 1)
    let r := rand (3 * i + 2) * maxDist
    [r * Real.sin phi * Real.cos theta,
     r * Real.sin phi * Real.sin theta,
     r * Real.cos phi]

/-- The truthiness test and call `SHAPES[type](this.count)` of
`ParticleSystem.setShape`: `none` when `type` is not a key of the
`SHAPES` table. -/
def lookup (type : String) (count : ℕ) (rand : ℕ → ℝ) : Option (List ℝ) :=
  if type = "SPHERE" then some (SPHERE count)
  else if type = "HEART" then some (HEART count rand)
  else if type = "FLOWER" then some (FLOWER count rand)
  else if type = "SATURN" then some (SATURN count rand)
  else if type = "FIREWORKS" then some (FIREWORKS count rand)
  else none

end SHAPES

/-- An RGB color; channels as exact rationals (hex / 255). -/
structure Color where
  r : ℚ
  g : ℚ
  b : ℚ
deriving DecidableEq

namespace COLORS

/-- `#00ffff`. -/
def DEFAULT : Color := ⟨0, 1, 1⟩

/-- `#ff0055`. -/
def HEART : Color := ⟨1, 0, 85 / 255⟩

/-- `#ffcc00`. -/
def FLOWER : Color := ⟨1, 204 / 255, 0⟩

/-- `#ffaa88`. -/
def SATURN : Color := ⟨1, 170 / 255, 136 / 255⟩

/-- `#ffffff`. -/
def FIREWORKS : Color := ⟨1, 1, 1⟩

end COLORS

namespace ParticleSystem

/-- The shape-selection state of a `ParticleSystem` instance. -/
structure PSState where
  count : ℕ
  currentShape : String
  targetPositions : List ℝ
  targetColor : Color

/-- `ParticleSystem.setShape(type)` (`ParticleSystem.js` lines 158-170):
when `type` is a key of `SHAPES`, regenerate the target positions and pick
the target color; otherwise the guard `if (SHAPES[type])` fails and the
method does nothing. -/
def setShape (rand : ℕ → ℝ) (st : PSState) (type : String) : PSState :=
  match SHAPES.lookup type st.count rand with
  | some positions =>
    { st with
      currentShape := type
      targetPositions := positions
      targetColor :=
        if type = "HEART" then COLORS.HEART
        else if type = "FLOWER" then COLORS.FLOWER
        else if type = "SATURN" then COLORS.SATURN
        else if type = "FIREWORKS" then COLORS.FIREWORKS
        else COLORS.DEFAULT }
  | none => st

/-- A `ParticleSystem` state currently targeting the heart shape, used to
exercise `setShape` with an unmapped shape id. -/
def psHeart : PSState := ⟨15000, "HEART", [], COLORS.HEART⟩

/-- An active open-hand input: repel mode, interaction point at the origin. -/
def inpRepel : Option InputState := some ⟨true, 0, 0, "OPEN", false⟩

/-- A one-particle target array fixed at the origin. -/
def oneTarget : Fin 1 → Vec3 := fun _ => ⟨0, 0, 0⟩

/-- A one-particle initial position array. -/
def onePos0 : Fin 1 → Vec3 := fun _ => ⟨1, 2, 3⟩

/-- An all-zero stream of per-tick random draws for one particle. -/
def zeroDraws : ℕ → Fin 1 → ℝ := fun _ _ => 0

end ParticleSystem

/-! ## Theorems -/

namespace GPGPU

theorem targetsAt_current_ne_previous {α : Type*} (init : PingPong α)
    (h : init.current ≠ init.previous) :
    ∀ k, (targetsAt init k).current ≠ (targetsAt init k).previous := by
  intro k
  induction k with
  | zero => exact h
  | succ k ih => exact fun e => ih e.symm

end GPGPU

/-- C8: the two framebuffer objects stay distinct, each tick reads from a
different buffer than it writes, and the read/write roles swap after every
tick, so they strictly alternate across ticks (period two). -/
theorem pingpong_roles_alternate {α : Type*} (init : GPGPU.PingPong α) (k : ℕ)
    (h : init.current ≠ init.previous) :
    GPGPU.readBuffer init k ≠ GPGPU.writeBuffer init k ∧
      GPGPU.readBuffer init (k + 1) = GPGPU.writeBuffer init k ∧
      GPGPU.writeBuffer init (k + 1) = GPGPU.readBuffer init k ∧
      GPGPU.writeBuffer init (k + 2) = GPGPU.writeBuffer init k := by
  refine ⟨?_, rfl, rfl, rfl⟩
  exact fun e => GPGPU.targetsAt_current_ne_previous init h k e.symm

/-- Witness for C8 at a concrete two-buffer initial state. -/
theorem pingpong_roles_alternate_witness :
    ((⟨true, false⟩ : GPGPU.PingPong Bool).current ≠
        (⟨true, false⟩ : GPGPU.PingPong Bool).previous) ∧
      (GPGPU.readBuffer (⟨true, false⟩ : GPGPU.PingPong Bool) 3 ≠
          GPGPU.writeBuffer (⟨true, false⟩ : GPGPU.PingPong Bool) 3 ∧
        GPGPU.readBuffer (⟨true, false⟩ : GPGPU.PingPong Bool) 4 =
          GPGPU.writeBuffer (⟨true, false⟩ : GPGPU.PingPong Bool) 3 ∧
        GPGPU.writeBuffer (⟨true, false⟩ : GPGPU.PingPong Bool) 4 =
          GPGPU.readBuffer (⟨true, false⟩ : GPGPU.PingPong Bool) 3 ∧
        GPGPU.writeBuffer (⟨true, false⟩ : GPGPU.PingPong Bool) 5 =
          GPGPU.writeBuffer (⟨true, false⟩ : GPGPU.PingPong Bool) 3) :=
  ⟨by decide, pingpong_roles_alternate (⟨true, false⟩ : GPGPU.PingPong Bool) 3 (by decide)⟩

/-- C10: a detection cycle with zero hands only clears the published hand
list; the smoothing window and the committed gesture are untouched (the
classifier's neutral output on empty input never enters the window), and
any number of consecutive empty cycles leaves them unchanged. -/
theorem onResults_empty_preserves_smoother (st : HandTracking.TrackState) (n : ℕ) :
    HandTracking.onResults st [] = some ⟨[], st.smoother⟩ ∧
      HandTracking.emptyCycles (n + 1) st = some ⟨[], st.smoother⟩ := by
  constructor
  · rfl
  · induction n generalizing st with
    | zero => rfl
    | succ n ih => exact ih ⟨[], st.smoother⟩

/-- C3: the classifier returns the neutral label "IDLE" on a missing hand
list and on an empty hand list, but on a hand with fewer than 21 keypoints
it throws a TypeError (modelled as `none`) instead of returning the neutral
label, contradicting the spec's no-throw requirement. -/
theorem detectGesture_short_hand_throws :
    GestureDetection.detectGesture none = some "IDLE" ∧
      GestureDetection.detectGesture (some []) = some "IDLE" ∧
      GestureDetection.detectGesture (some [[⟨0, 0, 0⟩]]) = none :=
  ⟨rfl, rfl, rfl⟩

/-- C7 counterexample: `setShape` with the unmapped id "BANANA" leaves the
previous target state (here: the heart shape and heart color) fully in
place; it does not fall back to the default shape or default color. -/
theorem setShape_unknown_keeps_state :
    ParticleSystem.setShape (fun _ => 0) ParticleSystem.psHeart "BANANA" =
        ParticleSystem.psHeart ∧
      ParticleSystem.psHeart.targetColor ≠ COLORS.DEFAULT := by
  exact ⟨rfl, by decide⟩

/-- C7 amended: `setShape` with a shape id that is not a key of the `SHAPES`
table does not crash and is a no-op — the previous target positions, shape
id and target color all stay in place (no fallback to the default shape). -/
theorem setShape_unknown_noop (rand : ℕ → ℝ) (st : ParticleSystem.PSState)
    (type : String) (h : SHAPES.lookup type st.count rand = none) :
    ParticleSystem.setShape rand st type = st := by
  unfold ParticleSystem.setShape
  rw [h]

/-- Witness for the amended C7 at the concrete unmapped id "BANANA". -/
theorem setShape_unknown_noop_witness :
    SHAPES.lookup "BANANA" ParticleSystem.psHeart.count (fun _ => 0) = none ∧
      ParticleSystem.setShape (fun _ => 0) ParticleSystem.psHeart "BANANA" =
        ParticleSystem.psHeart :=
  ⟨rfl, setShape_unknown_noop (fun _ => 0) ParticleSystem.psHeart "BANANA" rfl⟩

theorem length_flatMap_range_of_three (n : ℕ) (f : ℕ → List ℝ)
    (hf : ∀ i, (f i).length = 3) :
    ((List.range n).flatMap f).length = 3 * n := by
  induction n with
  | zero => rfl
  | succ n ih =>
    rw [List.range_succ, List.flatMap_append, List.length_append, ih]
    simp [hf n]
    omega

theorem length_flatMap_append_of_three (m k : ℕ) (f g : ℕ → List ℝ)
    (hf : ∀ i, (f i).length = 3) (hg : ∀ i, (g i).length = 3) :
    ((List.range m).flatMap f ++ (List.range k).flatMap g).length = 3 * (m + k) := by
  rw [List.length_append, length_flatMap_range_of_three m f hf,
    length_flatMap_range_of_three k g hg]
  ring

theorem cubeFacePoint_length (size u v : ℝ) (face : ℕ) :
    (shapeGenerators.cubeFacePoint size u v face).length = 3 := by
  unfold shapeGenerators.cubeFacePoint
  split_ifs <;> rfl

/-- C5: every shape generator — the four of `shapeGenerators.js` and the
five of the `SHAPES` table in `ParticleSystem.js` — returns, for every
particle count (in particular 0, 1, 1000 and 1000000), a position array of
length exactly `3 × particleCount`, with all slots written. -/
theorem shape_generators_length (count : ℕ)
    (radius scale size helixRadius helixHeight : ℝ) (rand : ℕ → ℝ) :
    (shapeGenerators.generateSphere count radius).length = 3 * count ∧
      (shapeGenerators.generateHeart count scale).length = 3 * count ∧
      (shapeGenerators.generateCube count size rand).length = 3 * count ∧
      (shapeGenerators.generateDoubleHelix count helixRadius helixHeight).length = 3 * count ∧
      (SHAPES.SPHERE count).length = 3 * count ∧
      (SHAPES.HEART count rand).length = 3 * count ∧
      (SHAPES.FLOWER count rand).length = 3 * count ∧
      (SHAPES.SATURN count rand).length = 3 * count ∧
      (SHAPES.FIREWORKS count rand).length = 3 * count := by
  refine ⟨?_, ?_, ?_, ?_, ?_, ?_, ?_, ?_, ?_⟩
  · exact length_flatMap_range_of_three count _ fun i => rfl
  · exact length_flatMap_range_of_three count _ fun i => rfl
  · exact length_flatMap_range_of_three count _ fun i => cubeFacePoint_length size _ _ _
  · exact length_flatMap_range_of_three count _ fun i => rfl
  · exact length_flatMap_range_of_three count _ fun i => rfl
  · exact length_flatMap_range_of_three count _ fun i => rfl
  · exact length_flatMap_range_of_three count _ fun i => rfl
  · have h3 : (SHAPES.SATURN count rand).length = 3 * (7 * count / 10 + (count - 7 * count / 10)) :=
      length_flatMap_append_of_three _ _ _ _ (fun i => rfl) (fun i => rfl)
    rw [h3]
    have h := Nat.div_mul_le_self (7 * count) 10
    omega
  · exact length_flatMap_range_of_three count _ fun i => rfl

/-- C6: the claim fails on the GPU side.  The shader's attraction magnitude
denominator `dist + 0.1` is indeed bounded below by the epsilon 0.1, but the
`normalize(dir)` factor of the same attraction term divides by the raw,
unguarded distance: for a particle exactly at the mouse position (distance
0, inside the 1.5 capture radius) the term is `0 / 0` — undefined in GLSL,
yielding a NaN position (modelled `none`).  The CPU loop contains no
epsilon at all: its only division is by the constant 40 (`cpuForce 0 = 1`),
and a particle at the interaction point still gets the well-defined plain
target, so no NaN arises there. -/
theorem gpu_attraction_unguarded_at_zero_distance :
    (∀ mouseWorld pos : Vec3,
        (0.1 : ℝ) ≤ SimulationShader.mouseWellDenom mouseWorld pos) ∧
      (∀ p : Vec3, SimulationShader.mouseWellVelocity p p = none) ∧
      (∀ (ix iy randA randB : ℝ) (target : Vec3),
        ParticleSystem.forcedTarget ⟨true, ix, iy, true⟩ randA randB target
          ⟨ix, iy, 0⟩ = target) ∧
      ParticleSystem.cpuForce 0 = 1 := by
  refine ⟨fun mouseWorld pos => ?_, fun p => ?_, fun ix iy randA randB target => ?_, by
    norm_num [ParticleSystem.cpuForce]⟩
  · have h := Real.sqrt_nonneg ((mouseWorld.x - pos.x) * (mouseWorld.x - pos.x) +
      (mouseWorld.y - pos.y) * (mouseWorld.y - pos.y) +
      (mouseWorld.z - pos.z) * (mouseWorld.z - pos.z))
    unfold SimulationShader.mouseWellDenom SimulationShader.simLength
    linarith
  · norm_num [SimulationShader.mouseWellVelocity, SimulationShader.normalize3,
      SimulationShader.simLength]
  · norm_num [ParticleSystem.forcedTarget, ParticleSystem.cpuForce]

namespace HandTracking

theorem smootherStep_buffer (st : SmootherState) (g : String) :
    (smootherStep st g).buffer =
      if 15 < (st.buffer ++ [g]).length then (st.buffer ++ [g]).tail
      else st.buffer ++ [g] := by
  simp only [smootherStep, GESTURE_CONFIDENCE_THRESHOLD]
  split_ifs <;> rfl

theorem smootherStep_buffer_length_le (st : SmootherState) (g : String)
    (h : st.buffer.length ≤ 15) : (smootherStep st g).buffer.length ≤ 15 := by
  rw [smootherStep_buffer]
  split_ifs with h1
  · simp only [List.length_tail, List.length_append, List.length_singleton]
    omega
  · simp only [List.length_append, List.length_singleton] at h1 ⊢
    omega

theorem feedSmoother_buffer_length_le (gs : List String) :
    ∀ st : SmootherState, st.buffer.length ≤ 15 →
      (feedSmoother st gs).buffer.length ≤ 15 := by
  induction gs with
  | nil => exact fun st h => h
  | cons g gs ih => exact fun st h => ih _ (smootherStep_buffer_length_le st g h)

theorem feedSmoother_append (st : SmootherState) (l1 l2 : List String) :
    feedSmoother st (l1 ++ l2) = feedSmoother (feedSmoother st l1) l2 := by
  induction l1 generalizing st with
  | nil => rfl
  | cons g gs ih => exact ih (smootherStep st g)

theorem all_replicate_self (n : ℕ) (a : String) :
    (List.replicate n a).all (fun g => g == a) = true := by
  simp [List.all_eq_true, List.mem_replicate]

theorem feedSmoother_replicate_commits (a : String) :
    ∀ j : ℕ, 1 ≤ j → j ≤ 15 → ∀ st : SmootherState, st.buffer.length ≤ 15 →
      (∃ S, st.buffer = S ++ List.replicate (15 - j) a) →
      (feedSmoother st (List.replicate j a)).committed = a := by
  intro j
  induction j with
  | zero => omega
  | succ j ih =>
    intro _ h2 st hlen hS
    obtain ⟨S, hS⟩ := hS
    rw [List.replicate_succ]
    show (feedSmoother (smootherStep st a) (List.replicate j a)).committed = a
    rcases Nat.eq_zero_or_pos j with hj | hj
    · subst hj
      -- final push: the buffer held `S ++ a^14`, pushing `a` fills it with
      -- fifteen copies of `a` and the unanimity check commits `a`.
      have hS15 : st.buffer ++ [a] = S ++ List.replicate 15 a := by
        rw [hS, List.append_assoc, ← List.replicate_succ']
      have hlenS : S.length ≤ 1 := by
        have hl := congrArg List.length hS
        simp at hl
        omega
      show (smootherStep st a).committed = a
      rcases S with _ | ⟨s, S'⟩
      · simp only [List.nil_append] at hS15
        simp [smootherStep, GESTURE_CONFIDENCE_THRESHOLD, hS15, all_replicate_self]
      · have hS' : S' = [] := by simp at hlenS; exact hlenS
        subst hS'
        simp only [List.cons_append, List.nil_append] at hS15
        simp [smootherStep, GESTURE_CONFIDENCE_THRESHOLD, hS15, all_replicate_self]
    · apply ih hj (by omega) _ (smootherStep_buffer_length_le st a hlen)
      have hbuf1 : st.buffer ++ [a] = S ++ List.replicate (15 - j) a := by
        have he : 15 - (j + 1) + 1 = 15 - j := by omega
        rw [hS, List.append_assoc, ← List.replicate_succ', he]
      rw [smootherStep_buffer]
      split_ifs with hlt
      · -- overflow: `S` is nonempty, the evicted entry comes out of `S`
        have hSne : S ≠ [] := by
          intro he
          subst he
          simp only [List.nil_append] at hbuf1
          rw [hbuf1] at hlt
          simp at hlt
          omega
        rcases S with _ | ⟨s, S'⟩
        · exact absurd rfl hSne
        · refine ⟨S', ?_⟩
          rw [hbuf1]
          simp
      · exact ⟨S, hbuf1⟩

theorem altSeq_succ (a b : String) (n : ℕ) :
    altSeq a b (n + 1) = altSeq a b n ++ [altf a b n] := by
  simp [altSeq, List.range_succ]

theorem altf_succ_ne (a b : String) (hab : a ≠ b) (k : ℕ) :
    altf a b k ≠ altf a b (k + 1) := by
  unfold altf
  rcases Nat.mod_two_eq_zero_or_one k with hk | hk
  · have hk1 : (k + 1) % 2 = 1 := by omega
    simp [hk, hk1]
    exact hab
  · have hk1 : (k + 1) % 2 = 0 := by omega
    simp [hk, hk1]
    exact fun e => hab e.symm

theorem smootherStep_no_commit (st : SmootherState) (g x : String) (pre : List String)
    (hpre : st.buffer = pre ++ [x]) (hx : x ≠ g) :
    (smootherStep st g).committed = st.committed := by
  have hxg : (x == g) = false := beq_eq_false_iff_ne.mpr hx
  simp only [smootherStep, GESTURE_CONFIDENCE_THRESHOLD]
  split_ifs with h1 h2 h3 h4 h5
  -- the two commit branches are impossible: the window still contains
  -- the previous sample `x ≠ g`, so the unanimity check fails
  · exfalso
    rw [hpre] at h1 h3
    rcases pre with _ | ⟨p, pre'⟩
    · simp at h1
    · simp [hxg] at h3
  · rfl
  · rfl
  · exfalso
    rw [hpre] at h5
    simp [hxg] at h5
  · rfl
  · rfl

theorem smootherStep_buffer_ends (st : SmootherState) (g : String) :
    ∃ pre2, (smootherStep st g).buffer = pre2 ++ [g] := by
  rw [smootherStep_buffer]
  split_ifs with h1
  · rcases hb : st.buffer with _ | ⟨p, rest⟩
    · rw [hb] at h1
      simp at h1
    · exact ⟨rest, rfl⟩
  · exact ⟨st.buffer, rfl⟩

theorem altFeed_invariant (a b c : String) (hab : a ≠ b) :
    ∀ n, (feedSmoother ⟨[], c⟩ (altSeq a b n)).committed = c ∧
      (feedSmoother ⟨[], c⟩ (altSeq a b n)).buffer.length ≤ 15 ∧
      ∀ m, n = m + 1 →
        ∃ pre, (feedSmoother ⟨[], c⟩ (altSeq a b n)).buffer = pre ++ [altf a b m] := by
  intro n
  induction n with
  | zero =>
    refine ⟨by simp [altSeq, feedSmoother], by simp [altSeq, feedSmoother], ?_⟩
    exact fun m hm => by omega
  | succ n ih =>
    obtain ⟨hc, hlen, hshape⟩ := ih
    rw [altSeq_succ, feedSmoother_append]
    show (smootherStep (feedSmoother ⟨[], c⟩ (altSeq a b n)) (altf a b n)).committed = c ∧ _
    rcases Nat.eq_zero_or_pos n with hn | hn
    · subst hn
      refine ⟨?_, ?_, ?_⟩
      · simp [altSeq, feedSmoother, smootherStep, GESTURE_CONFIDENCE_THRESHOLD]
      · simp [altSeq, feedSmoother, smootherStep, GESTURE_CONFIDENCE_THRESHOLD]
      · intro m hm
        have hm0 : m = 0 := by omega
        subst hm0
        exact ⟨[], by simp [altSeq, feedSmoother, smootherStep, GESTURE_CONFIDENCE_THRESHOLD]⟩
    · obtain ⟨n', rfl⟩ : ∃ n', n = n' + 1 := ⟨n - 1, by omega⟩
      obtain ⟨pre, hpre⟩ := hshape n' rfl
      refine ⟨?_, smootherStep_buffer_length_le _ _ hlen, ?_⟩
      · rw [smootherStep_no_commit _ _ _ pre hpre (altf_succ_ne a b hab n')]
        exact hc
      · intro m hm
        have hmn : m = n' + 1 := by omega
        subst hmn
        exact smootherStep_buffer_ends _ _

theorem smootherStep_commit_characterize (st : SmootherState) (g : String)
    (h : (smootherStep st g).committed ≠ st.committed) :
    (smootherStep st g).buffer.length = 15 ∧
      (smootherStep st g).buffer.all (fun x => x == g) = true ∧
      (smootherStep st g).committed = g := by
  simp only [smootherStep, GESTURE_CONFIDENCE_THRESHOLD] at h ⊢
  split_ifs at h ⊢ with h1 h2 h3 h4 h5
  all_goals first
    | exact absurd rfl h
    | exact ⟨by assumption, by assumption, rfl⟩

end HandTracking

/-- C2: the gesture-smoothing window never exceeds 15 entries; feeding the
same label 15 times in a row (from any window of at most 15 entries) commits
that label; feeding a strictly alternating sequence of two distinct labels
from the initial empty window never changes the committed gesture; and any
step that changes the committed gesture must have a full window (15 entries)
that unanimously equals the newest sample. -/
theorem smoother_unanimous_window (a b c g : String) (buf gs : List String)
    (n : ℕ) (st : HandTracking.SmootherState)
    (hab : a ≠ b) (hbuf : buf.length ≤ 15) :
    (HandTracking.feedSmoother ⟨buf, c⟩ gs).buffer.length ≤ 15 ∧
      (HandTracking.feedSmoother ⟨buf, c⟩ (List.replicate 15 a)).committed = a ∧
      (HandTracking.feedSmoother ⟨[], c⟩ (HandTracking.altSeq a b n)).committed = c ∧
      ((HandTracking.smootherStep st g).committed ≠ st.committed →
        (HandTracking.smootherStep st g).buffer.length = 15 ∧
          (HandTracking.smootherStep st g).buffer.all (fun x => x == g) = true ∧
          (HandTracking.smootherStep st g).committed = g) := by
  refine ⟨HandTracking.feedSmoother_buffer_length_le gs _ hbuf, ?_, ?_, ?_⟩
  · exact HandTracking.feedSmoother_replicate_commits a 15 (by norm_num) (by norm_num)
      ⟨buf, c⟩ hbuf ⟨buf, by simp⟩
  · exact (HandTracking.altFeed_invariant a b c hab n).1
  · exact HandTracking.smootherStep_commit_characterize st g

/-- Witness for C2 at concrete labels and a concrete smoother state. -/
theorem smoother_unanimous_window_witness :
    (("A" : String) ≠ "B" ∧ (["C"] : List String).length ≤ 15) ∧
      ((HandTracking.feedSmoother ⟨["C"], "X"⟩ ["A", "B", "A"]).buffer.length ≤ 15 ∧
        (HandTracking.feedSmoother ⟨["C"], "X"⟩ (List.replicate 15 "A")).committed = "A" ∧
        (HandTracking.feedSmoother ⟨[], "X"⟩ (HandTracking.altSeq "A" "B" 40)).committed = "X" ∧
        ((HandTracking.smootherStep ⟨["C"], "X"⟩ "D").committed ≠
            (⟨["C"], "X"⟩ : HandTracking.SmootherState).committed →
          (HandTracking.smootherStep ⟨["C"], "X"⟩ "D").buffer.length = 15 ∧
            (HandTracking.smootherStep ⟨["C"], "X"⟩ "D").buffer.all (fun x => x == "D") = true ∧
            (HandTracking.smootherStep ⟨["C"], "X"⟩ "D").committed = "D")) :=
  ⟨⟨by decide, by decide⟩,
    smoother_unanimous_window "A" "B" "X" "D" ["C"] ["A", "B", "A"] 40
      ⟨["C"], "X"⟩ (by decide) (by decide)⟩

/-- C4: with exactly two hands whose wrist landmarks (index 0) lie within
planar Euclidean distance 0.1 of each other, the classifier returns
TWO_HAND_CLASP, whatever the finger configuration of either hand — the
two-hand check fires before any single-hand test is evaluated.
(The distance bound is given in squared form: `dist < 0.1 ↔ dist² < 0.01`.) -/
theorem detectGesture_two_hand_clasp (h1 h2 : Hand) (w1 w2 : Keypoint)
    (hw1 : h1[0]? = some w1) (hw2 : h2[0]? = some w2)
    (hd : (w1.x - w2.x) ^ 2 + (w1.y - w2.y) ^ 2 < 0.01) :
    GestureDetection.detectGesture (some [h1, h2]) = some "TWO_HAND_CLASP" := by
  have hdist : Real.sqrt ((w1.x - w2.x) ^ 2 + (w1.y - w2.y) ^ 2) < 0.1 := by
    rw [Real.sqrt_lt' (by norm_num : (0:ℝ) < 0.1)]
    nlinarith [hd]
  simp [GestureDetection.detectGesture, hw1, hw2, hdist]

/-- Witness for C4: two one-landmark hands with coincident wrists. -/
theorem detectGesture_two_hand_clasp_witness :
    (([(⟨0, 0, 0⟩ : Keypoint)] : Hand)[0]? = some (⟨0, 0, 0⟩ : Keypoint) ∧
        ((⟨0, 0, 0⟩ : Keypoint).x - (⟨0, 0, 0⟩ : Keypoint).x) ^ 2 +
          ((⟨0, 0, 0⟩ : Keypoint).y - (⟨0, 0, 0⟩ : Keypoint).y) ^ 2 < 0.01) ∧
      GestureDetection.detectGesture (some [[⟨0, 0, 0⟩], [⟨0, 0, 0⟩]]) =
        some "TWO_HAND_CLASP" :=
  ⟨⟨rfl, by norm_num⟩,
    detectGesture_two_hand_clasp [⟨0, 0, 0⟩] [⟨0, 0, 0⟩] ⟨0, 0, 0⟩ ⟨0, 0, 0⟩
      rfl rfl (by norm_num)⟩

namespace ParticleSystem

theorem updateParticle_inactive (ia : Interact) (h : ia.active = false)
    (r a b : ℝ) (target pos : Vec3) :
    updateParticle ia r a b target pos = lerpStep (0.03 + r * 0.02) pos target := by
  unfold updateParticle forcedTarget
  rw [h]
  simp

theorem abs_lerp_coord (p t s : ℝ) (hs : s ≤ 1) :
    |p + (t - p) * s - t| = (1 - s) * |p - t| := by
  have h : p + (t - p) * s - t = (1 - s) * (p - t) := by ring
  rw [h, abs_mul, abs_of_nonneg (by linarith : (0:ℝ) ≤ 1 - s)]

theorem errNorm_nonneg {n : ℕ} (target pos : Fin n → Vec3) :
    0 ≤ errNorm target pos :=
  Finset.sum_nonneg fun i _ => by positivity

theorem errNorm_update_le {n : ℕ} (inputState : Option InputState)
    (rs ra rb : Fin n → ℝ) (target pos : Fin n → Vec3)
    (hact : (readInput inputState).active = false)
    (hr : ∀ i, 0 ≤ rs i ∧ rs i ≤ 1) :
    errNorm target (update inputState rs ra rb target pos) ≤
      0.97 * errNorm target pos := by
  unfold errNorm update
  rw [Finset.mul_sum]
  apply Finset.sum_le_sum
  intro i _
  rw [updateParticle_inactive _ hact]
  have hs03 : (0.03 : ℝ) ≤ 0.03 + rs i * 0.02 := by
    have h0 : 0 ≤ rs i * 0.02 := mul_nonneg (hr i).1 (by norm_num)
    linarith
  have hs1 : (0.03 : ℝ) + rs i * 0.02 ≤ 1 := by
    have h1 : rs i * 0.02 ≤ 0.02 := by nlinarith [(hr i).2, (hr i).1]
    linarith
  unfold lerpStep
  rw [abs_lerp_coord _ _ _ hs1, abs_lerp_coord _ _ _ hs1, abs_lerp_coord _ _ _ hs1]
  have hA := abs_nonneg ((pos i).x - (target i).x)
  have hB := abs_nonneg ((pos i).y - (target i).y)
  have hC := abs_nonneg ((pos i).z - (target i).z)
  nlinarith [hs03, hA, hB, hC]

theorem errNorm_trajectory_le {n : ℕ} (inputState : Option InputState)
    (rs ra rb : ℕ → Fin n → ℝ) (target pos0 : Fin n → Vec3)
    (hact : (readInput inputState).active = false)
    (hr : ∀ k i, 0 ≤ rs k i ∧ rs k i ≤ 1) :
    ∀ k, errNorm target (trajectory inputState rs ra rb target pos0 k) ≤
      0.97 ^ k * errNorm target pos0 := by
  intro k
  induction k with
  | zero => simp [trajectory]
  | succ k ih =>
    have hstep := errNorm_update_le inputState (rs k) (ra k) (rb k) target
      (trajectory inputState rs ra rb target pos0 k) hact (hr k)
    calc errNorm target (trajectory inputState rs ra rb target pos0 (k + 1)) ≤
        0.97 * errNorm target (trajectory inputState rs ra rb target pos0 k) := hstep
      _ ≤ 0.97 * (0.97 ^ k * errNorm target pos0) :=
        mul_le_mul_of_nonneg_left ih (by norm_num)
      _ = 0.97 ^ (k + 1) * errNorm target pos0 := by ring

end ParticleSystem

/-- C1: with no active interaction and a fixed target-positions array, the
position error norm is non-increasing at every tick and tends to zero in the
limit: each coordinate moves by the convex blend
`pos += (target - pos) * speed` with `speed = 0.03 + rand*0.02 ∈ (0, 1)`. -/
theorem errNorm_monotone_tendsto_zero {n : ℕ}
    (inputState : Option ParticleSystem.InputState)
    (rs ra rb : ℕ → Fin n → ℝ) (target pos0 : Fin n → Vec3) (k : ℕ)
    (hact : (ParticleSystem.readInput inputState).active = false)
    (hr : ∀ j i, 0 ≤ rs j i ∧ rs j i ≤ 1) :
    ParticleSystem.errNorm target
        (ParticleSystem.trajectory inputState rs ra rb target pos0 (k + 1)) ≤
      ParticleSystem.errNorm target
        (ParticleSystem.trajectory inputState rs ra rb target pos0 k) ∧
    Filter.Tendsto
      (fun m => ParticleSystem.errNorm target
        (ParticleSystem.trajectory inputState rs ra rb target pos0 m))
      Filter.atTop (nhds 0) := by
  have hup := ParticleSystem.errNorm_trajectory_le inputState rs ra rb target pos0 hact hr
  have hlow : ∀ m, 0 ≤ ParticleSystem.errNorm target
      (ParticleSystem.trajectory inputState rs ra rb target pos0 m) :=
    fun m => ParticleSystem.errNorm_nonneg _ _
  constructor
  · have hstep := ParticleSystem.errNorm_update_le inputState (rs k) (ra k) (rb k) target
      (ParticleSystem.trajectory inputState rs ra rb target pos0 k) hact (hr k)
    have h := hlow k
    have hgoal : ParticleSystem.errNorm target
        (ParticleSystem.trajectory inputState rs ra rb target pos0 (k + 1)) ≤
        0.97 * ParticleSystem.errNorm target
          (ParticleSystem.trajectory inputState rs ra rb target pos0 k) := hstep
    linarith [hgoal]
  · have hgeo : Filter.Tendsto
        (fun m => (0.97 : ℝ) ^ m * ParticleSystem.errNorm target pos0)
        Filter.atTop (nhds 0) := by
      have h1 := tendsto_pow_atTop_nhds_zero_of_lt_one
        (by norm_num : (0:ℝ) ≤ 0.97) (by norm_num : (0.97:ℝ) < 1)
      simpa using h1.mul_const (ParticleSystem.errNorm target pos0)
    exact tendsto_of_tendsto_of_tendsto_of_le_of_le tendsto_const_nhds hgeo hlow hup

/-- Witness for C1: one particle, zero random draws, target at the origin. -/
theorem errNorm_monotone_tendsto_zero_witness :
    ((ParticleSystem.readInput none).active = false ∧
        (∀ (j : ℕ) (i : Fin 1),
          0 ≤ ParticleSystem.zeroDraws j i ∧ ParticleSystem.zeroDraws j i ≤ 1)) ∧
      (ParticleSystem.errNorm ParticleSystem.oneTarget
          (ParticleSystem.trajectory none ParticleSystem.zeroDraws ParticleSystem.zeroDraws
            ParticleSystem.zeroDraws ParticleSystem.oneTarget ParticleSystem.onePos0 1) ≤
        ParticleSystem.errNorm ParticleSystem.oneTarget
          (ParticleSystem.trajectory none ParticleSystem.zeroDraws ParticleSystem.zeroDraws
            ParticleSystem.zeroDraws ParticleSystem.oneTarget ParticleSystem.onePos0 0) ∧
      Filter.Tendsto
        (fun m => ParticleSystem.errNorm ParticleSystem.oneTarget
          (ParticleSystem.trajectory none ParticleSystem.zeroDraws ParticleSystem.zeroDraws
            ParticleSystem.zeroDraws ParticleSystem.oneTarget ParticleSystem.onePos0 m))
        Filter.atTop (nhds 0)) :=
  ⟨⟨rfl, fun j i => ⟨le_refl 0, by norm_num [ParticleSystem.zeroDraws]⟩⟩,
    errNorm_monotone_tendsto_zero none ParticleSystem.zeroDraws ParticleSystem.zeroDraws
      ParticleSystem.zeroDraws ParticleSystem.oneTarget ParticleSystem.onePos0 0 rfl
      (fun j i => ⟨le_refl 0, by norm_num [ParticleSystem.zeroDraws]⟩)⟩

/-- C9 counterexample: a particle at distance 36 (< 40) from the interaction
point, with its shape target at the interaction point, moves strictly
CLOSER after one repel tick (36 → 35.46): the repel force is added to the
shape target, and the blend toward the target dominates when the force
factor is small, so the claim "every particle within the radius moves
farther" is false. -/
theorem repel_tick_can_decrease_distance :
    ParticleSystem.distToInteract (ParticleSystem.readInput ParticleSystem.inpRepel)
        (ParticleSystem.updateParticle (ParticleSystem.readInput ParticleSystem.inpRepel)
          0 0 0 ⟨0, 0, 0⟩ ⟨36, 0, 0⟩) <
      ParticleSystem.distToInteract (ParticleSystem.readInput ParticleSystem.inpRepel)
        ⟨36, 0, 0⟩ := by
  have hri : ParticleSystem.readInput ParticleSystem.inpRepel =
      ⟨true, 0, 0, true⟩ := by
    simp [ParticleSystem.readInput, ParticleSystem.inpRepel]
  rw [hri]
  have hsqrt : Real.sqrt (1296 : ℝ) = 36 := by
    rw [show (1296:ℝ) = 36 ^ 2 by norm_num, Real.sqrt_sq (by norm_num : (0:ℝ) ≤ 36)]
  have key : ParticleSystem.updateParticle ⟨true, 0, 0, true⟩ 0 0 0 ⟨0, 0, 0⟩ ⟨36, 0, 0⟩ =
      ⟨35.46, 0, 0⟩ := by
    norm_num [ParticleSystem.updateParticle, ParticleSystem.forcedTarget,
      ParticleSystem.lerpStep, ParticleSystem.cpuForce, hsqrt]
  rw [key]
  have hA : ParticleSystem.distToInteract ⟨true, 0, 0, true⟩ ⟨35.46, 0, 0⟩ = 35.46 := by
    show Real.sqrt (((35.46:ℝ) - 0) * (35.46 - 0) + ((0:ℝ) - 0) * (0 - 0) + (0:ℝ) * 0) = 35.46
    rw [show ((35.46:ℝ) - 0) * (35.46 - 0) + ((0:ℝ) - 0) * (0 - 0) + (0:ℝ) * 0 = 35.46 ^ 2
      by norm_num]
    exact Real.sqrt_sq (by norm_num : (0:ℝ) ≤ 35.46)
  have hB : ParticleSystem.distToInteract ⟨true, 0, 0, true⟩ ⟨36, 0, 0⟩ = 36 := by
    show Real.sqrt (((36:ℝ) - 0) * (36 - 0) + ((0:ℝ) - 0) * (0 - 0) + (0:ℝ) * 0) = 36
    rw [show ((36:ℝ) - 0) * (36 - 0) + ((0:ℝ) - 0) * (0 - 0) + (0:ℝ) * 0 = 36 ^ 2 by norm_num]
    exact Real.sqrt_sq (by norm_num : (0:ℝ) ≤ 36)
  rw [hA, hB]
  norm_num

theorem sqrt_scaled_sum (dx dy dz c : ℝ) (hc : 0 ≤ c) :
    Real.sqrt ((c * dx) * (c * dx) + (c * dy) * (c * dy) + (c * dz) * (c * dz)) =
      c * Real.sqrt (dx * dx + dy * dy + dz * dz) := by
  have h : (c * dx) * (c * dx) + (c * dy) * (c * dy) + (c * dz) * (c * dz) =
      c ^ 2 * (dx * dx + dy * dy + dz * dz) := by ring
  rw [h, Real.sqrt_mul (by positivity) _, Real.sqrt_sq hc]

/-- C9 amended: a particle whose current position coincides with its shape
target (no residual shape pull), at positive distance below 40 from the
interaction point, moves strictly farther from the interaction point after
one repel tick.  (The distance bounds are stated on the squared distance.) -/
theorem repel_tick_increases_distance_at_target
    (inputState : Option ParticleSystem.InputState) (r ra rb : ℝ) (p : Vec3)
    (hact : (ParticleSystem.readInput inputState).active = true)
    (hrep : (ParticleSystem.readInput inputState).repel = true)
    (hr : 0 ≤ r)
    (hpos : 0 < ParticleSystem.sqDistToInteract (ParticleSystem.readInput inputState) p)
    (hlt : ParticleSystem.sqDistToInteract (ParticleSystem.readInput inputState) p < 1600) :
    ParticleSystem.distToInteract (ParticleSystem.readInput inputState) p <
      ParticleSystem.distToInteract (ParticleSystem.readInput inputState)
        (ParticleSystem.updateParticle (ParticleSystem.readInput inputState) r ra rb p p) := by
  set ia := ParticleSystem.readInput inputState with hia
  obtain ⟨dx, dy, dz, hdx, hdy, hdz⟩ :
      ∃ dx dy dz, p.x - ia.interactX = dx ∧ p.y - ia.interactY = dy ∧ p.z = dz :=
    ⟨_, _, _, rfl, rfl, rfl⟩
  have hSdef : ParticleSystem.sqDistToInteract ia p = dx * dx + dy * dy + dz * dz := by
    unfold ParticleSystem.sqDistToInteract
    rw [hdx, hdy, hdz]
  have hS0 : 0 < dx * dx + dy * dy + dz * dz := by rw [← hSdef]; exact hpos
  have hS1600 : dx * dx + dy * dy + dz * dz < 1600 := by rw [← hSdef]; exact hlt
  have hD0 : 0 < Real.sqrt (dx * dx + dy * dy + dz * dz) := Real.sqrt_pos.mpr hS0
  have hD40 : Real.sqrt (dx * dx + dy * dy + dz * dz) < 40 := by
    have h40 : Real.sqrt (1600 : ℝ) = 40 := by
      rw [show (1600:ℝ) = 40 ^ 2 by norm_num, Real.sqrt_sq (by norm_num : (0:ℝ) ≤ 40)]
    calc Real.sqrt (dx * dx + dy * dy + dz * dz) < Real.sqrt 1600 :=
        Real.sqrt_lt_sqrt (le_of_lt hS0) hS1600
      _ = 40 := h40
  set D := Real.sqrt (dx * dx + dy * dy + dz * dz) with hD
  set s := (0.03 : ℝ) + r * 0.02 with hs
  have hs0 : 0 < s := by
    have h0 : 0 ≤ r * 0.02 := mul_nonneg hr (by norm_num)
    rw [hs]; linarith
  have hf0 : 0 < ParticleSystem.cpuForce D := by
    unfold ParticleSystem.cpuForce
    have : 0 < 40 - D := by linarith
    positivity
  set f := ParticleSystem.cpuForce D with hf
  -- the updated position, coordinate by coordinate
  have hupd : ParticleSystem.updateParticle ia r ra rb p p =
      ⟨p.x + dx * f * 5 * s, p.y + dy * f * 5 * s, p.z + dz * f * 5 * s⟩ := by
    unfold ParticleSystem.updateParticle ParticleSystem.forcedTarget ParticleSystem.lerpStep
    rw [hact, hrep]
    simp only [if_true]
    rw [hdx, hdy, hdz, ← hD, if_pos hD40, ← hf, ← hs]
    rw [Vec3.mk.injEq]
    refine ⟨by ring, by ring, by ring⟩
  rw [hupd]
  have hnew : ParticleSystem.sqDistToInteract ia
      ⟨p.x + dx * f * 5 * s, p.y + dy * f * 5 * s, p.z + dz * f * 5 * s⟩ =
      ((1 + f * 5 * s) * dx) * ((1 + f * 5 * s) * dx) +
        ((1 + f * 5 * s) * dy) * ((1 + f * 5 * s) * dy) +
        ((1 + f * 5 * s) * dz) * ((1 + f * 5 * s) * dz) := by
    unfold ParticleSystem.sqDistToInteract
    simp only []
    rw [show p.x + dx * f * 5 * s - ia.interactX = (p.x - ia.interactX) + dx * f * 5 * s by ring,
      show p.y + dy * f * 5 * s - ia.interactY = (p.y - ia.interactY) + dy * f * 5 * s by ring,
      hdx, hdy, hdz]
    ring
  unfold ParticleSystem.distToInteract
  rw [hnew, hSdef, sqrt_scaled_sum dx dy dz (1 + f * 5 * s) (by positivity), ← hD]
  have h5 : 0 < f * 5 * s * D :=
    mul_pos (mul_pos (mul_pos hf0 (by norm_num : (0:ℝ) < 5)) hs0) hD0
  have hexp : (1 + f * 5 * s) * D = D + f * 5 * s * D := by ring
  rw [hexp]
  linarith [h5]

/-- Witness for the amended C9: a particle at its target, 10 units from the
interaction point, open-hand repel input. -/
theorem repel_tick_increases_distance_at_target_witness :
    ((ParticleSystem.readInput ParticleSystem.inpRepel).active = true ∧
        (ParticleSystem.readInput ParticleSystem.inpRepel).repel = true ∧
        (0:ℝ) ≤ 0 ∧
        0 < ParticleSystem.sqDistToInteract
          (ParticleSystem.readInput ParticleSystem.inpRepel) ⟨10, 0, 0⟩ ∧
        ParticleSystem.sqDistToInteract
          (ParticleSystem.readInput ParticleSystem.inpRepel) ⟨10, 0, 0⟩ < 1600) ∧
      ParticleSystem.distToInteract (ParticleSystem.readInput ParticleSystem.inpRepel)
          ⟨10, 0, 0⟩ <
        ParticleSystem.distToInteract (ParticleSystem.readInput ParticleSystem.inpRepel)
          (ParticleSystem.updateParticle (ParticleSystem.readInput ParticleSystem.inpRepel)
            0 0 0 ⟨10, 0, 0⟩ ⟨10, 0, 0⟩) :=
  ⟨⟨by simp [ParticleSystem.readInput, ParticleSystem.inpRepel],
      by simp [ParticleSystem.readInput, ParticleSystem.inpRepel],
      le_refl 0,
      by norm_num [ParticleSystem.sqDistToInteract, ParticleSystem.readInput,
        ParticleSystem.inpRepel],
      by norm_num [ParticleSystem.sqDistToInteract, ParticleSystem.readInput,
        ParticleSystem.inpRepel]⟩,
    repel_tick_increases_distance_at_target ParticleSystem.inpRepel 0 0 0 ⟨10, 0, 0⟩
      (by simp [ParticleSystem.readInput, ParticleSystem.inpRepel])
      (by simp [ParticleSystem.readInput, ParticleSystem.inpRepel])
      (le_refl 0)
      (by norm_num [ParticleSystem.sqDistToInteract, ParticleSystem.readInput,
        ParticleSystem.inpRepel])
      (by norm_num [ParticleSystem.sqDistToInteract, ParticleSystem.readInput,
        ParticleSystem.inpRepel])⟩

end
